import Mathlib

/-!
# Verification of the Local-Lakehouse dataframe layer

A shallow embedding of `uchelper/models.py`, `uchelper/dataframe.py` and the
relevant parts of `uchelper/client.py`.

Modelling conventions:
* A Polars dataframe is represented by its schema, a list of
  (column name, polars dtype) pairs (`DfSchema`); the row contents never
  influence any of the logic under verification.
* Python exceptions become the `Err` inductive carried in `Except`.
  The static part of each exception message is kept; dynamic (formatted)
  parts of messages are omitted.
* Physical writes performed through the polars / deltalake libraries are
  recorded as `WriteOp` effects; reads as a returned `ReadOp` describing
  which reader was invoked and with which arguments.
* `df.write_delta` followed by `pl.scan_delta` re-reads the schema the
  delta library produced on disk; that post-write schema is not computed by
  this repository, so it enters the model as an explicit argument
  (`post_delta`) of `write_table`.
* Python's `sorted` is a stable sort; it is modelled by
  `List.insertionSort`, which is also stable, so the two agree as functions.
-/

namespace LocalLakehouse

/-- `uchelper/models.py` `DataType` enum (Unity Catalog column type names). -/
inductive DataType
  | BOOLEAN | BYTE | SHORT | INT | LONG | FLOAT | DOUBLE | DATE
  | TIMESTAMP | TIMESTAMP_NTZ | STRING | BINARY | DECIMAL | INTERVAL
  | ARRAY | STRUCT | MAP | CHAR | NULL | USER_DEFINED_TYPE | TABLE_TYPE
deriving DecidableEq, Repr

/-- `uchelper/models.py` `TableType` enum. -/
inductive TableType
  | MANAGED | EXTERNAL
deriving DecidableEq, Repr

/-- `uchelper/models.py` `FileType` enum. -/
inductive FileType
  | DELTA | CSV | JSON | AVRO | PARQUET | ORC | TEXT
deriving DecidableEq, Repr

/-- `uchelper/models.py` `Column` (the pydantic model fields that carry data;
the computed fields `type_text` / `type_json` are derived and unused by the
verified code paths). -/
structure Column where
  name : String
  data_type : DataType
  type_precision : Int
  type_scale : Int
  type_interval_type : Option Int
  position : Int
  comment : Option String
  nullable : Bool
  partition_index : Option Int
deriving DecidableEq, Repr

/-- `uchelper/models.py` `Table` (metadata fields used by the dataframe layer). -/
structure Table where
  name : String
  catalog_name : String
  schema_name : String
  table_type : TableType
  file_type : FileType
  columns : List Column
  storage_location : Option String
deriving DecidableEq, Repr

/-- `uchelper/dataframe.py` `WriteMode` enum. -/
inductive WriteMode
  | APPEND | OVERWRITE
deriving DecidableEq, Repr

/-- `uchelper/dataframe.py` `SchemaEvolution` enum. -/
inductive SchemaEvolution
  | STRICT | MERGE | OVERWRITE
deriving DecidableEq, Repr

/-- Polars data types, as far as `polars_type_to_uc_type` /
`uc_type_to_polars_type` distinguish them.  `Time` stands for any polars
dtype not named in `polars_type_to_uc_type`'s match (its catch-all branch). -/
inductive PolarsType
  | Decimal (precision : Option Int) (scale : Int)
  | Float32 | Float64 | Int8 | Int16 | Int32 | Int64
  | Date | Datetime | Array | List | Struct | String | Binary | Boolean | Null
  | Time
deriving DecidableEq, Repr

/-- The schema of a polars DataFrame / LazyFrame: ordered (name, dtype) pairs. -/
abbrev DfSchema := List (Prod String PolarsType)

/-- Exceptions raised by the embedded code (`uchelper/exceptions.py`,
Python `AssertionError`, Python `NotImplementedError`). -/
inductive Err
  | unsupportedOperation (msg : String)
  | schemaMismatch (msg : String)
  | notImplemented
  | assertionFailed
deriving DecidableEq, Repr

/-- Python `str.startswith` (kernel-computable form over the char list). -/
def strStartsWith (s p : String) : Bool := p.data.isPrefixOf s.data

/-- Python `str.removeprefix("file://")` after a successful
`startswith("file://")` check: drop the first 7 characters. -/
def strDrop (s : String) (n : Nat) : String := String.mk (s.data.drop n)

/-- Is this an `UnsupportedOperationError`? -/
def Err.isUnsupported : Err → Bool
  | .unsupportedOperation _ => true
  | _ => false

/-- Is this a `SchemaMismatchError`? -/
def Err.isSchemaMismatch : Err → Bool
  | .schemaMismatch _ => true
  | _ => false

/-- `dataframe.py` `polars_type_to_uc_type`: polars dtype to
(DataType, precision, scale).  A `None` precision on a decimal defaults
to 0, exactly as in the source. -/
def polars_type_to_uc_type : PolarsType → Except Err (DataType × Int × Int)
  | .Decimal p s => .ok (DataType.DECIMAL, p.getD 0, s)
  | .Float32 => .ok (DataType.FLOAT, 0, 0)
  | .Float64 => .ok (DataType.DOUBLE, 0, 0)
  | .Int8 => .ok (DataType.BYTE, 0, 0)
  | .Int16 => .ok (DataType.SHORT, 0, 0)
  | .Int32 => .ok (DataType.INT, 0, 0)
  | .Int64 => .ok (DataType.LONG, 0, 0)
  | .Date => .ok (DataType.DATE, 0, 0)
  | .Datetime => .ok (DataType.TIMESTAMP, 0, 0)
  | .Array => .ok (DataType.ARRAY, 0, 0)
  | .List => .ok (DataType.ARRAY, 0, 0)
  | .Struct => .ok (DataType.STRUCT, 0, 0)
  | .String => .ok (DataType.STRING, 0, 0)
  | .Binary => .ok (DataType.BINARY, 0, 0)
  | .Boolean => .ok (DataType.BOOLEAN, 0, 0)
  | .Null => .ok (DataType.NULL, 0, 0)
  | .Time => .error (Err.unsupportedOperation "Unsupported datatype")

/-- `dataframe.py` `uc_type_to_polars_type`. -/
def uc_type_to_polars_type (t : DataType) (precision : Int) (scale : Int) :
    Except Err PolarsType :=
  match t with
  | DataType.BOOLEAN => .ok PolarsType.Boolean
  | DataType.BYTE => .ok PolarsType.Int8
  | DataType.SHORT => .ok PolarsType.Int16
  | DataType.INT => .ok PolarsType.Int32
  | DataType.LONG => .ok PolarsType.Int64
  | DataType.FLOAT => .ok PolarsType.Float32
  | DataType.DOUBLE => .ok PolarsType.Float64
  | DataType.DATE => .ok PolarsType.Date
  | DataType.TIMESTAMP => .ok PolarsType.Datetime
  | DataType.STRING => .ok PolarsType.String
  | DataType.BINARY => .ok PolarsType.Binary
  | DataType.DECIMAL => .ok (PolarsType.Decimal (some precision) scale)
  | DataType.ARRAY => .ok PolarsType.Array
  | DataType.STRUCT => .ok PolarsType.Struct
  | DataType.CHAR => .ok PolarsType.String
  | DataType.NULL => .ok PolarsType.Null
  | _ => .error (Err.unsupportedOperation "Unsupported datatype")

/-- The recursion behind `df_schema_to_uc_schema`: walk the dataframe schema
with a running position counter, converting each dtype. -/
def df_schema_to_uc_schema_from (df : DfSchema) (partition_cols : List String)
    (i : Int) : Except Err (List Column) :=
  match df with
  | [] => .ok []
  | (col_name, col_type) :: rest =>
    match polars_type_to_uc_type col_type with
    | .error e => .error e
    | .ok t =>
      match df_schema_to_uc_schema_from rest partition_cols (i + 1) with
      | .error e => .error e
      | .ok cols =>
        .ok ({ name := col_name
               data_type := t.1
               type_precision := t.2.1
               type_scale := t.2.2
               type_interval_type := none
               position := i
               comment := none
               nullable := true
               partition_index :=
                 if partition_cols.contains col_name then
                   some (Int.ofNat (partition_cols.indexOf col_name))
                 else none } :: cols)

/-- `dataframe.py` `df_schema_to_uc_schema` (with its `partition_cols`
argument; the source's default value for it is `[]`). -/
def df_schema_to_uc_schema (df : DfSchema) (partition_cols : List String) :
    Except Err (List Column) :=
  df_schema_to_uc_schema_from df partition_cols 0

/-- A Python dict insertion: overwrite the value in place if the key is
present, else append the binding. -/
def dictInsert (d : List (Prod String PolarsType)) (k : String) (v : PolarsType) :
    List (Prod String PolarsType) :=
  match d with
  | [] => [(k, v)]
  | (k', v') :: rest =>
    if k' = k then (k, v) :: rest else (k', v') :: dictInsert rest k v

/-- A Python dict comprehension over a list of (key, value) pairs. -/
def dictOfPairs (l : List (Prod String PolarsType)) : List (Prod String PolarsType) :=
  l.foldl (fun d kv => dictInsert d kv.1 kv.2) []

/-- Convert a list of UC columns to (name, polars dtype) pairs; the first
failing conversion aborts, exactly like the raising Python comprehension.
The source calls `uc_type_to_polars_type` with its default precision and
scale (both 0). -/
def cols_to_pl_pairs : List Column → Except Err (List (Prod String PolarsType))
  | [] => .ok []
  | c :: rest =>
    match uc_type_to_polars_type c.data_type 0 0 with
    | .error e => .error e
    | .ok t =>
      match cols_to_pl_pairs rest with
      | .error e => .error e
      | .ok ps => .ok ((c.name, t) :: ps)

/-- `dataframe.py` `uc_schema_to_df_schema`: a dict from column name to
polars dtype. -/
def uc_schema_to_df_schema (cols : List Column) :
    Except Err (List (Prod String PolarsType)) :=
  match cols_to_pl_pairs cols with
  | .error e => .error e
  | .ok ps => .ok (dictOfPairs ps)

/-- Ordering of columns by `position` (`sorted(key=lambda x: x.position)`). -/
def posLe (a b : Column) : Prop := a.position ≤ b.position

instance : DecidableRel posLe := fun a b =>
  inferInstanceAs (Decidable (a.position ≤ b.position))

instance : IsTotal Column posLe := ⟨fun a b => Int.le_total a.position b.position⟩

instance : IsTrans Column posLe := ⟨fun _ _ _ h1 h2 => le_trans h1 h2⟩

/-- Stable sort of a column list by `position`. -/
def sortByPosition (l : List Column) : List Column := List.insertionSort posLe l

/-- `dataframe.py` `check_schema_equality`'s per-pair test: the loop body
returns `False` when names differ, when data types differ, or when both
types are DECIMAL but precision or scale differ. -/
def colPairOk (a b : Column) : Bool :=
  decide (a.name = b.name) && decide (a.data_type = b.data_type) &&
    !(decide (a.data_type = DataType.DECIMAL) &&
      (decide (a.type_precision ≠ b.type_precision) ||
        decide (a.type_scale ≠ b.type_scale)))

/-- `dataframe.py` `check_schema_equality`. -/
def check_schema_equality (left right : List Column) : Bool :=
  if left.length ≠ right.length then false
  else
    ((sortByPosition left).zip (sortByPosition right)).all fun p => colPairOk p.1 p.2

/-- `dataframe.py` `raise_for_schema_mismatch`. -/
def raise_for_schema_mismatch (df : DfSchema) (uc : List Column) :
    Except Err Unit :=
  match df_schema_to_uc_schema df [] with
  | .error e => .error e
  | .ok df_uc_schema =>
    if check_schema_equality df_uc_schema uc then .ok ()
    else .error (Err.schemaMismatch
      "Schema evolution is set to strict but schemas do not match")

/-- Ordering of partition columns by `partition_index`
(`sorted(key=lambda x: x.partition_index)`; every element in that call has a
non-`None` index, so `getD 0` reads exactly the stored index). -/
def partIdxLe (a b : Column) : Prop :=
  a.partition_index.getD 0 ≤ b.partition_index.getD 0

instance : DecidableRel partIdxLe := fun a b =>
  inferInstanceAs (Decidable (a.partition_index.getD 0 ≤ b.partition_index.getD 0))

instance : IsTotal Column partIdxLe :=
  ⟨fun a b => Int.le_total (a.partition_index.getD 0) (b.partition_index.getD 0)⟩

instance : IsTrans Column partIdxLe := ⟨fun _ _ _ h1 h2 => le_trans h1 h2⟩

/-- `dataframe.py` `get_partition_columns`. -/
def get_partition_columns (cols : List Column) : List Column :=
  List.insertionSort partIdxLe (cols.filter fun c => c.partition_index.isSome)

/-- Which reader family a `ReadOp` belongs to. -/
inductive ReadOp
  | delta (path : String)
  | parquetPlain (path : String)
  | parquetHive (path : String) (hive_schema : List (Prod String PolarsType))
  | csvPlain (path : String)
  | csvWithSchema (path : String) (schema : List (Prod String PolarsType))
  | avro (path : String)
deriving DecidableEq, Repr

/-- The file format whose polars reader a `ReadOp` invokes. -/
def readerFor : ReadOp → FileType
  | .delta _ => FileType.DELTA
  | .parquetPlain _ => FileType.PARQUET
  | .parquetHive _ _ => FileType.PARQUET
  | .csvPlain _ => FileType.CSV
  | .csvWithSchema _ _ => FileType.CSV
  | .avro _ => FileType.AVRO

/-- `dataframe.py` `read_table`: which polars reader is invoked, with which
path and schema arguments. -/
def read_table (table : Table) : Except Err ReadOp :=
  match table.storage_location with
  | none => .error Err.assertionFailed
  | some path =>
    if strStartsWith path "file://" then
      let p := strDrop path 7
      match table.file_type with
      | FileType.DELTA => .ok (ReadOp.delta p)
      | FileType.PARQUET =>
        let pcs := get_partition_columns table.columns
        if pcs.length = 0 then .ok (ReadOp.parquetPlain p)
        else
          match cols_to_pl_pairs pcs with
          | .error e => .error e
          | .ok ps => .ok (ReadOp.parquetHive p (dictOfPairs ps))
      | FileType.CSV =>
        match uc_schema_to_df_schema table.columns with
        | .error e => .error e
        | .ok sch =>
          if sch.length = 0 then .ok (ReadOp.csvPlain p)
          else .ok (ReadOp.csvWithSchema p sch)
      | FileType.AVRO => .ok (ReadOp.avro p)
      | _ => .error Err.notImplemented
    else .error (Err.unsupportedOperation "Only local storage is supported.")

/-- `dataframe.py` `scan_table`: identical dispatch, except Avro scanning is
unsupported. -/
def scan_table (table : Table) : Except Err ReadOp :=
  match table.storage_location with
  | none => .error Err.assertionFailed
  | some path =>
    if strStartsWith path "file://" then
      let p := strDrop path 7
      match table.file_type with
      | FileType.DELTA => .ok (ReadOp.delta p)
      | FileType.PARQUET =>
        let pcs := get_partition_columns table.columns
        if pcs.length = 0 then .ok (ReadOp.parquetPlain p)
        else
          match cols_to_pl_pairs pcs with
          | .error e => .error e
          | .ok ps => .ok (ReadOp.parquetHive p (dictOfPairs ps))
      | FileType.CSV =>
        match uc_schema_to_df_schema table.columns with
        | .error e => .error e
        | .ok sch =>
          if sch.length = 0 then .ok (ReadOp.csvPlain p)
          else .ok (ReadOp.csvWithSchema p sch)
      | FileType.AVRO => .error (Err.unsupportedOperation "scan is not supported for Avro.")
      | _ => .error Err.notImplemented
    else .error (Err.unsupportedOperation "Only local storage is supported.")

/-- The `delta_write_options` dict assembled by the DELTA branch of
`write_table`. -/
structure DeltaWriteOptions where
  engine : String
  schema_mode : Option String
  partition_by : Option (List String)
  partition_filters : Option (List (Prod String (Prod String String)))
  predicate : Option String
deriving DecidableEq, Repr

/-- One physical write performed through an external library. -/
inductive WriteOp
  | delta (mode : WriteMode) (options : DeltaWriteOptions)
  | parquetPartitioned (partition_cols : List String) (delete_matching : Bool)
  | parquetSingle
  | csv
  | avro
deriving DecidableEq, Repr

/-- The `try: raise_for_schema_mismatch(...); return None except
SchemaMismatchError: return df_schema_to_uc_schema(...)` pattern used after
a physical write in `write_table`. -/
def post_write_columns (post : DfSchema) (uc : List Column)
    (pnames : List String) : Except Err (Option (List Column)) :=
  match raise_for_schema_mismatch post uc with
  | .ok _ => .ok none
  | .error (Err.schemaMismatch _) =>
    match df_schema_to_uc_schema post pnames with
    | .error e => .error e
    | .ok cols => .ok (some cols)
  | .error e => .error e

/-- `dataframe.py` `write_table`.

Returns the list of physical writes performed (in order) together with
either the raised exception or the returned value (`none` = the catalog
schema needs no update, `some cols` = the new catalog schema).

`post_delta` is the schema that `pl.scan_delta` reads back from the target
after `df.write_delta` finishes; it is produced by the deltalake library,
outside this repository, so it is an explicit model input (only the DELTA
branch consults it). -/
def write_table (table : Table) (df : DfSchema) (mode : WriteMode)
    (schema_evolution : SchemaEvolution)
    (partition_filters : Option (List (Prod String (Prod String String))))
    (replace_where : Option String) (post_delta : DfSchema) :
    List WriteOp × Except Err (Option (List Column)) :=
  match table.storage_location with
  | none => ([], .error Err.assertionFailed)
  | some path =>
    if strStartsWith path "file://" then
      match table.file_type, mode, schema_evolution with
      | _, WriteMode.APPEND, SchemaEvolution.OVERWRITE =>
        ([], .error (Err.unsupportedOperation
          "Schema evolution OVERWRITE is only supported when write mode is also OVERWRITE."))
      | FileType.DELTA, _, _ =>
        match (if schema_evolution = SchemaEvolution.STRICT then
                raise_for_schema_mismatch df table.columns else .ok ()) with
        | .error e => ([], .error e)
        | .ok _ =>
          let pcs := get_partition_columns table.columns
          let pnames := pcs.map Column.name
          if mode = WriteMode.OVERWRITE ∧ partition_filters.isSome ∧ replace_where.isSome then
            ([], .error (Err.unsupportedOperation
              "partition_filters and replace_where cannot be used together."))
          else
            let opts0 : DeltaWriteOptions :=
              { engine := "rust"
                schema_mode :=
                  if schema_evolution = SchemaEvolution.OVERWRITE then some "overwrite"
                  else if schema_evolution = SchemaEvolution.MERGE then some "merge"
                  else none
                partition_by := if 0 < pcs.length then some pnames else none
                partition_filters := none
                predicate := none }
            let opts :=
              if mode = WriteMode.OVERWRITE ∧ partition_filters.isSome then
                { opts0 with engine := "pyarrow", partition_filters := partition_filters }
              else if mode = WriteMode.OVERWRITE ∧ replace_where.isSome then
                { opts0 with predicate := replace_where }
              else opts0
            if schema_evolution ≠ SchemaEvolution.STRICT then
              ([WriteOp.delta mode opts], post_write_columns post_delta table.columns pnames)
            else
              ([WriteOp.delta mode opts], .ok none)
      | FileType.PARQUET, WriteMode.APPEND, SchemaEvolution.STRICT =>
        let pcs := get_partition_columns table.columns
        if pcs.length = 0 then
          ([], .error (Err.unsupportedOperation
            "Appending is only supported for PARQUET when partitioned."))
        else
          match raise_for_schema_mismatch df table.columns with
          | .error e => ([], .error e)
          | .ok _ => ([WriteOp.parquetPartitioned (pcs.map Column.name) false], .ok none)
      | FileType.PARQUET, WriteMode.OVERWRITE, _ =>
        match (if schema_evolution = SchemaEvolution.STRICT then
                raise_for_schema_mismatch df table.columns else .ok ()) with
        | .error e => ([], .error e)
        | .ok _ =>
          let pcs := get_partition_columns table.columns
          let pnames := pcs.map Column.name
          let op := if 0 < pcs.length then WriteOp.parquetPartitioned pnames true
                    else WriteOp.parquetSingle
          ([op], post_write_columns df table.columns pnames)
      | FileType.CSV, WriteMode.OVERWRITE, SchemaEvolution.STRICT =>
        match raise_for_schema_mismatch df table.columns with
        | .error e => ([], .error e)
        | .ok _ => ([WriteOp.csv], .ok none)
      | FileType.CSV, WriteMode.OVERWRITE, SchemaEvolution.OVERWRITE =>
        ([WriteOp.csv], post_write_columns df table.columns [])
      | FileType.AVRO, WriteMode.OVERWRITE, SchemaEvolution.STRICT =>
        match raise_for_schema_mismatch df table.columns with
        | .error e => ([], .error e)
        | .ok _ => ([WriteOp.avro], .ok none)
      | FileType.AVRO, WriteMode.OVERWRITE, SchemaEvolution.OVERWRITE =>
        ([WriteOp.avro], post_write_columns df table.columns [])
      | _, WriteMode.APPEND, _ =>
        ([], .error (Err.unsupportedOperation
          "Write mode APPEND is only supported for DELTA and partitioned PARQUET. For PARQUET, schema evolution must also be STRICT."))
      | _, _, SchemaEvolution.MERGE =>
        ([], .error (Err.unsupportedOperation
          "Schema evolution MERGE is only supported for DELTA."))
      | _, _, SchemaEvolution.OVERWRITE =>
        ([], .error (Err.unsupportedOperation
          "Schema evolution OVERWRITE is only supported when write mode is also OVERWRITE."))
      | _, _, _ =>
        ([], .error (Err.unsupportedOperation "Unsupported parameters"))
    else ([], .error (Err.unsupportedOperation "Only local storage is supported."))

/-- Side effects of `UCClient` methods against the catalog server. -/
inductive ClientEff
  | createTableCall (t : Table)
  | writeTableCall
  | overwriteTableCall (t : Table)
deriving DecidableEq, Repr

/-- `client.py` `UCClient.write_table` after `get_table` has produced
`table`: perform the write, then call `overwrite_table` with the updated
column list exactly when `write_table` returned one. -/
def client_write_table (table : Table) (df : DfSchema) (mode : WriteMode)
    (schema_evolution : SchemaEvolution)
    (partition_filters : Option (List (Prod String (Prod String String))))
    (replace_where : Option String) (post_delta : DfSchema) :
    List WriteOp × List ClientEff × Except Err Unit :=
  let r := write_table table df mode schema_evolution partition_filters
    replace_where post_delta
  match r.2 with
  | .error e => (r.1, [], .error e)
  | .ok none => (r.1, [], .ok ())
  | .ok (some cols) =>
    (r.1, [ClientEff.overwriteTableCall { table with columns := cols }], .ok ())

/-- The partition-index assignment loop of `UCClient.create_as_table` /
`register_as_table`. -/
def assignPartitionIndices (cols : List Column) (partition_cols : List String) :
    List Column :=
  cols.map fun c =>
    if partition_cols.contains c.name then
      { c with partition_index := some (Int.ofNat (partition_cols.indexOf c.name)) }
    else c

/-- `client.py` `UCClient.create_as_table`: validation and the table record
handed to `create_table`.  The trailing `self.write_table` call (and any
exception it raises) happens after the table is created and is abstracted
to the `writeTableCall` effect. -/
def create_as_table (df : DfSchema) (catalog : String) (schema : String)
    (name : String) (file_type : FileType) (table_type : TableType)
    (location : Option String) (partition_cols : Option (List String)) :
    List ClientEff × Except Err Table :=
  if table_type = TableType.MANAGED then
    ([], .error (Err.unsupportedOperation "MANAGED tables are not yet supported."))
  else if table_type = TableType.EXTERNAL ∧ location = none then
    ([], .error (Err.unsupportedOperation
      "To create an EXTERNAL table, you must specify a location to store it in."))
  else
    match location with
    | none => ([], .error Err.assertionFailed)
    | some loc =>
      if strStartsWith loc "file://" then
        match df_schema_to_uc_schema df [] with
        | .error e => ([], .error e)
        | .ok cols0 =>
          let build : List Column → List ClientEff × Except Err Table := fun cols =>
            let t : Table :=
              { name := name
                catalog_name := catalog
                schema_name := schema
                table_type := table_type
                file_type := file_type
                columns := cols
                storage_location := some loc }
            ([ClientEff.createTableCall t, ClientEff.writeTableCall], .ok t)
          match partition_cols with
          | some pcs =>
            if file_type ≠ FileType.DELTA ∧ file_type ≠ FileType.PARQUET then
              ([], .error (Err.unsupportedOperation
                "Partitioned tables only supported for DELTA and PARQUET."))
            else build (assignPartitionIndices cols0 pcs)
          | none => build cols0
      else
        ([], .error (Err.unsupportedOperation "Only local storage is supported."))

/-- Does `polars_type_to_uc_type` succeed on every dtype of a dataframe
schema?  (Exactly the condition under which `df_schema_to_uc_schema`
returns instead of raising.) -/
def convertible (df : DfSchema) : Bool :=
  df.all fun nt => (polars_type_to_uc_type nt.2).isOk

/-- Does `uc_type_to_polars_type` succeed on every recorded column type? -/
def colsConvertible (cols : List Column) : Bool :=
  cols.all fun c => (uc_type_to_polars_type c.data_type 0 0).isOk

/-- The fields of a `Column` that `check_schema_equality` reads:
name, data type, precision, scale and position. -/
def colKey (c : Column) : String × DataType × Int × Int × Int :=
  (c.name, c.data_type, c.type_precision, c.type_scale, c.position)

/-- Transcribed from the claim under verification (C1): the set of
(file type, write mode, schema evolution) combinations asserted to perform
a physical write; `hasParts` says whether the table has at least one
partition column. -/
def claimedWriteTable (ft : FileType) (mode : WriteMode)
    (se : SchemaEvolution) (hasParts : Bool) : Bool :=
  match ft, mode, se with
  | FileType.DELTA, WriteMode.APPEND, SchemaEvolution.OVERWRITE => false
  | FileType.DELTA, _, _ => true
  | FileType.PARQUET, WriteMode.APPEND, SchemaEvolution.STRICT => hasParts
  | FileType.PARQUET, WriteMode.OVERWRITE, _ => true
  | FileType.CSV, WriteMode.OVERWRITE, SchemaEvolution.STRICT => true
  | FileType.CSV, WriteMode.OVERWRITE, SchemaEvolution.OVERWRITE => true
  | FileType.AVRO, WriteMode.OVERWRITE, SchemaEvolution.STRICT => true
  | FileType.AVRO, WriteMode.OVERWRITE, SchemaEvolution.OVERWRITE => true
  | _, _, _ => false

/-- Transcribed from the claim under verification (C3): the supported
(file type, mode) pairs under STRICT schema evolution, i.e. those where the
STRICT write path reaches the schema check. -/
def strictSupported (ft : FileType) (mode : WriteMode) (hasParts : Bool) : Bool :=
  match ft, mode with
  | FileType.DELTA, _ => true
  | FileType.PARQUET, WriteMode.APPEND => hasParts
  | FileType.PARQUET, WriteMode.OVERWRITE => true
  | FileType.CSV, WriteMode.OVERWRITE => true
  | FileType.AVRO, WriteMode.OVERWRITE => true
  | _, _ => false

/-- Fixture: an INT column without partition index. -/
def colInt (nm : String) (pos : Int) : Column :=
  ⟨nm, DataType.INT, 0, 0, none, pos, none, true, none⟩

/-- Fixture: an INT column carrying a partition index. -/
def colPart (nm : String) (pos : Int) (idx : Int) : Column :=
  ⟨nm, DataType.INT, 0, 0, none, pos, none, true, some idx⟩

/-- Fixture: a one-column external CSV table at a local location. -/
def exCsvTable : Table :=
  ⟨"t", "cat", "sch", TableType.EXTERNAL, FileType.CSV,
    [colInt "a" 0], some "file:///tmp/t.csv"⟩

/-- Fixture: a partitioned external PARQUET table at a local location. -/
def exParquetTable : Table :=
  ⟨"p", "cat", "sch", TableType.EXTERNAL, FileType.PARQUET,
    [colInt "a" 0, colPart "p" 1 0], some "file:///tmp/p"⟩

/-- Fixture: an external DELTA table at a local location. -/
def exDeltaTable : Table :=
  ⟨"d", "cat", "sch", TableType.EXTERNAL, FileType.DELTA,
    [colInt "a" 0], some "file:///tmp/d"⟩

/-- Fixture: a CSV table whose recorded schema holds a column type that
`uc_type_to_polars_type` rejects. -/
def exNtzTable : Table :=
  ⟨"n", "cat", "sch", TableType.EXTERNAL, FileType.CSV,
    [⟨"a", DataType.TIMESTAMP_NTZ, 0, 0, none, 0, none, true, none⟩],
    some "file:///tmp/n.csv"⟩

/-- Fixture: a dataframe schema matching `exCsvTable` / `exDeltaTable`. -/
def exDfInt : DfSchema := [("a", PolarsType.Int32)]

/-- Fixture: a dataframe schema that does not match `exCsvTable`. -/
def exDfLong : DfSchema := [("a", PolarsType.Int64)]

/-- Fixture: a dataframe schema matching `exParquetTable`. -/
def exDfPart : DfSchema := [("a", PolarsType.Int32), ("p", PolarsType.Int32)]

theorem except_isOk_iff {ε α : Type} (e : Except ε α) :
    e.isOk = true ↔ ∃ a, e = .ok a := by
  cases e <;> simp [Except.isOk, Except.toBool]

theorem raise_ok {df : DfSchema} {uc s : List Column}
    (hdf : df_schema_to_uc_schema df [] = .ok s)
    (hmatch : check_schema_equality s uc = true) :
    raise_for_schema_mismatch df uc = .ok () := by
  simp [raise_for_schema_mismatch, hdf, hmatch]

theorem raise_mismatch {df : DfSchema} {uc s : List Column}
    (hdf : df_schema_to_uc_schema df [] = .ok s)
    (hmatch : check_schema_equality s uc = false) :
    raise_for_schema_mismatch df uc =
      .error (Err.schemaMismatch
        "Schema evolution is set to strict but schemas do not match") := by
  simp [raise_for_schema_mismatch, hdf, hmatch]

theorem conv_from_ok_of_convertible {df : DfSchema} (h : convertible df = true)
    (pc : List String) : ∀ i, ∃ s, df_schema_to_uc_schema_from df pc i = .ok s := by
  induction df with
  | nil => exact fun i => ⟨[], rfl⟩
  | cons nt rest ih =>
    intro i
    simp only [convertible, List.all_cons, Bool.and_eq_true] at h
    obtain ⟨t, ht⟩ := (except_isOk_iff _).mp h.1
    obtain ⟨s, hs⟩ := ih h.2 (i + 1)
    simp [df_schema_to_uc_schema_from, ht, hs]

theorem df_schema_ok_of_convertible {df : DfSchema} (h : convertible df = true)
    (pc : List String) : ∃ s, df_schema_to_uc_schema df pc = .ok s :=
  conv_from_ok_of_convertible h pc 0

theorem post_write_none {post : DfSchema} {uc s : List Column} {pn : List String}
    (h1 : df_schema_to_uc_schema post [] = .ok s)
    (h2 : check_schema_equality s uc = true) :
    post_write_columns post uc pn = .ok none := by
  simp [post_write_columns, raise_ok h1 h2]

theorem post_write_some {post : DfSchema} {uc s cols : List Column} {pn : List String}
    (h1 : df_schema_to_uc_schema post [] = .ok s)
    (h2 : check_schema_equality s uc = false)
    (h3 : df_schema_to_uc_schema post pn = .ok cols) :
    post_write_columns post uc pn = .ok (some cols) := by
  simp [post_write_columns, raise_mismatch h1 h2, h3]

theorem post_write_ok_exists {post : DfSchema} (h : convertible post = true)
    (uc : List Column) (pn : List String) :
    ∃ v, post_write_columns post uc pn = .ok v := by
  obtain ⟨s, hs⟩ := df_schema_ok_of_convertible h []
  obtain ⟨c, hc⟩ := df_schema_ok_of_convertible h pn
  by_cases hch : check_schema_equality s uc = true
  · exact ⟨none, post_write_none hs hch⟩
  · exact ⟨some c, post_write_some hs (by simpa using hch) hc⟩

theorem polars_conv_error_unsupported {pt : PolarsType} {e : Err}
    (h : polars_type_to_uc_type pt = .error e) :
    ∃ m, e = Err.unsupportedOperation m := by
  cases pt <;> simp [polars_type_to_uc_type] at h
  exact ⟨_, h.symm⟩

theorem conv_error_unsupported {df : DfSchema} {pc : List String} {i : Int}
    {e : Err} (h : df_schema_to_uc_schema_from df pc i = .error e) :
    ∃ m, e = Err.unsupportedOperation m := by
  induction df generalizing i with
  | nil => simp [df_schema_to_uc_schema_from] at h
  | cons nt rest ih =>
    simp only [df_schema_to_uc_schema_from] at h
    rcases hp : polars_type_to_uc_type nt.2 with e' | t <;> rw [hp] at h
    · simp at h
      subst h
      exact polars_conv_error_unsupported hp
    · rcases hr : df_schema_to_uc_schema_from rest pc (i + 1) with e2 | s <;>
        rw [hr] at h <;> simp at h
      subst h
      exact ih hr

theorem post_write_characterize {post : DfSchema} {uc : List Column}
    {pn : List String} {v : Option (List Column)}
    (h : post_write_columns post uc pn = .ok v) :
    (v = none ↔ ∃ s, df_schema_to_uc_schema post [] = .ok s ∧
        check_schema_equality s uc = true)
    ∧ (∀ cols, v = some cols → df_schema_to_uc_schema post pn = .ok cols ∧
        ∃ s, df_schema_to_uc_schema post [] = .ok s ∧
          check_schema_equality s uc = false) := by
  rcases hconv : df_schema_to_uc_schema post [] with e | s
  · exfalso
    obtain ⟨m, rfl⟩ := conv_error_unsupported hconv
    have hpw : post_write_columns post uc pn = .error (Err.unsupportedOperation m) := by
      simp [post_write_columns, raise_for_schema_mismatch, hconv]
    rw [hpw] at h
    cases h
  · by_cases hch : check_schema_equality s uc = true
    · rw [post_write_none hconv hch] at h
      obtain rfl : none = v := Except.ok.inj h
      refine ⟨⟨fun _ => ⟨s, rfl, hch⟩, fun _ => rfl⟩, ?_⟩
      intro cols hcols
      cases hcols
    · have hch' : check_schema_equality s uc = false := by simpa using hch
      rcases hpn : df_schema_to_uc_schema post pn with e2 | c2
      · exfalso
        have hpw : post_write_columns post uc pn = .error e2 := by
          simp [post_write_columns, raise_mismatch hconv hch', hpn]
        rw [hpw] at h
        cases h
      · rw [post_write_some hconv hch' hpn] at h
        obtain rfl : some c2 = v := Except.ok.inj h
        constructor
        · constructor
          · intro h'
            cases h'
          · rintro ⟨s', hs', hchs⟩
            obtain rfl : s = s' := Except.ok.inj hs'
            rw [hch'] at hchs
            cases hchs
        · intro cols hcols
          obtain rfl : c2 = cols := Option.some.inj hcols
          exact ⟨rfl, s, rfl, hch'⟩

/-- C10: for every scalar `DataType` in the listed twelve, converting to a
polars dtype with `uc_type_to_polars_type` (at default precision and scale)
and back with `polars_type_to_uc_type` returns `(t, 0, 0)`. -/
theorem uc_polars_round_trip (t : DataType)
    (h : t ∈ [DataType.BOOLEAN, DataType.BYTE, DataType.SHORT, DataType.INT,
      DataType.LONG, DataType.FLOAT, DataType.DOUBLE, DataType.DATE,
      DataType.TIMESTAMP, DataType.STRING, DataType.BINARY, DataType.NULL]) :
    (uc_type_to_polars_type t 0 0).bind polars_type_to_uc_type = .ok (t, 0, 0) := by
  fin_cases h <;> rfl

/-- Witness for C10 at `t = BOOLEAN`. -/
theorem uc_polars_round_trip_witness :
    DataType.BOOLEAN ∈ [DataType.BOOLEAN, DataType.BYTE, DataType.SHORT,
      DataType.INT, DataType.LONG, DataType.FLOAT, DataType.DOUBLE,
      DataType.DATE, DataType.TIMESTAMP, DataType.STRING, DataType.BINARY,
      DataType.NULL] ∧
    (uc_type_to_polars_type DataType.BOOLEAN 0 0).bind polars_type_to_uc_type =
      .ok (DataType.BOOLEAN, 0, 0) :=
  ⟨by decide, uc_polars_round_trip DataType.BOOLEAN (by decide)⟩

/-- C4: for every file type, `write_table` with mode APPEND and schema
evolution OVERWRITE raises `UnsupportedOperationError` and performs no
physical write. -/
theorem append_overwrite_unsupported (table : Table) (df post_delta : DfSchema)
    (pf : Option (List (Prod String (Prod String String)))) (rw : Option String)
    (path : String) (hloc : table.storage_location = some path) :
    ∃ msg, write_table table df WriteMode.APPEND SchemaEvolution.OVERWRITE pf rw
      post_delta = ([], .error (Err.unsupportedOperation msg)) := by
  cases hp : strStartsWith path "file://"
  · exact ⟨"Only local storage is supported.", by simp [write_table, hloc, hp]⟩
  · cases hft : table.file_type <;>
      exact ⟨"Schema evolution OVERWRITE is only supported when write mode is also OVERWRITE.",
        by simp [write_table, hloc, hp, hft]⟩

/-- Witness for C4 at a concrete CSV table. -/
theorem append_overwrite_unsupported_witness :
    exCsvTable.storage_location = some "file:///tmp/t.csv" ∧
    ∃ msg, write_table exCsvTable exDfInt WriteMode.APPEND SchemaEvolution.OVERWRITE
      none none [] = ([], .error (Err.unsupportedOperation msg)) :=
  ⟨rfl, append_overwrite_unsupported exCsvTable exDfInt [] none none
    "file:///tmp/t.csv" rfl⟩

theorem cols_pairs_ok_of_convertible {cols : List Column}
    (h : colsConvertible cols = true) : ∃ ps, cols_to_pl_pairs cols = .ok ps := by
  induction cols with
  | nil => exact ⟨[], rfl⟩
  | cons c rest ih =>
    simp only [colsConvertible, List.all_cons, Bool.and_eq_true] at h
    obtain ⟨t, ht⟩ := (except_isOk_iff _).mp h.1
    obtain ⟨ps, hps⟩ := ih h.2
    simp [cols_to_pl_pairs, ht, hps]

theorem mem_of_mem_get_partition_columns {c : Column} {cols : List Column}
    (h : c ∈ get_partition_columns cols) : c ∈ cols := by
  have hp := List.perm_insertionSort partIdxLe
    (cols.filter fun c => c.partition_index.isSome)
  exact (List.mem_filter.mp (hp.mem_iff.mp h)).1

theorem colsConvertible_partition {cols : List Column}
    (h : colsConvertible cols = true) :
    colsConvertible (get_partition_columns cols) = true := by
  simp only [colsConvertible, List.all_eq_true] at h ⊢
  exact fun c hc => h c (mem_of_mem_get_partition_columns hc)

/-- C5 counterexample: a CSV table with a local `file://` location whose
recorded schema holds a `TIMESTAMP_NTZ` column; `read_table` raises
`UnsupportedOperationError` instead of returning a dataframe, refuting the
claim as stated. -/
theorem read_table_csv_counterexample :
    exNtzTable.file_type = FileType.CSV ∧
    exNtzTable.storage_location = some "file:///tmp/n.csv" ∧
    strStartsWith "file:///tmp/n.csv" "file://" = true ∧
    read_table exNtzTable = .error (Err.unsupportedOperation "Unsupported datatype") :=
  ⟨rfl, rfl, by decide, rfl⟩

/-- C5 (amended): provided every recorded column type converts to a polars
type, `read_table` on a table of file type DELTA, PARQUET, CSV or AVRO with
a local (`file://`) storage location returns via the corresponding format
reader, any other storage-location scheme raises
`UnsupportedOperationError`, and the remaining file types (JSON, ORC, TEXT)
raise `NotImplementedError`. -/
theorem read_table_dispatch (table : Table) (path : String)
    (hloc : table.storage_location = some path)
    (hconv : colsConvertible table.columns = true) :
    (strStartsWith path "file://" = false →
      read_table table = .error (Err.unsupportedOperation "Only local storage is supported."))
    ∧ (strStartsWith path "file://" = true →
        ((table.file_type = FileType.DELTA ∨ table.file_type = FileType.PARQUET ∨
            table.file_type = FileType.CSV ∨ table.file_type = FileType.AVRO) →
          ∃ op, read_table table = .ok op ∧ readerFor op = table.file_type)
        ∧ ((table.file_type = FileType.JSON ∨ table.file_type = FileType.ORC ∨
            table.file_type = FileType.TEXT) →
          read_table table = .error Err.notImplemented)) := by
  constructor
  · intro hp
    simp [read_table, hloc, hp]
  · intro hp
    constructor
    · intro hft4
      cases hft : table.file_type
      case DELTA =>
        exact ⟨ReadOp.delta (strDrop path 7),
          by simp [read_table, hloc, hp, hft], by simp [readerFor, hft]⟩
      case PARQUET =>
        by_cases hl : (get_partition_columns table.columns).length = 0
        · exact ⟨ReadOp.parquetPlain (strDrop path 7),
            by simp [read_table, hloc, hp, hft, hl], by simp [readerFor, hft]⟩
        · obtain ⟨ps, hps⟩ :=
            cols_pairs_ok_of_convertible (colsConvertible_partition hconv)
          exact ⟨ReadOp.parquetHive (strDrop path 7) (dictOfPairs ps),
            by simp [read_table, hloc, hp, hft, hl, hps], by simp [readerFor, hft]⟩
      case CSV =>
        obtain ⟨ps, hps⟩ := cols_pairs_ok_of_convertible hconv
        by_cases hlen : (dictOfPairs ps).length = 0
        · exact ⟨ReadOp.csvPlain (strDrop path 7),
            by simp [read_table, uc_schema_to_df_schema, hloc, hp, hft, hps, hlen],
            by simp [readerFor, hft]⟩
        · exact ⟨ReadOp.csvWithSchema (strDrop path 7) (dictOfPairs ps),
            by simp [read_table, uc_schema_to_df_schema, hloc, hp, hft, hps, hlen],
            by simp [readerFor, hft]⟩
      case AVRO =>
        exact ⟨ReadOp.avro (strDrop path 7),
          by simp [read_table, hloc, hp, hft], by simp [readerFor, hft]⟩
      case JSON => simp [hft] at hft4
      case ORC => simp [hft] at hft4
      case TEXT => simp [hft] at hft4
    · intro hft3
      cases hft : table.file_type
      case JSON => simp [read_table, hloc, hp, hft]
      case ORC => simp [read_table, hloc, hp, hft]
      case TEXT => simp [read_table, hloc, hp, hft]
      case DELTA => simp [hft] at hft3
      case PARQUET => simp [hft] at hft3
      case CSV => simp [hft] at hft3
      case AVRO => simp [hft] at hft3

/-- Witness for the amended C5 at a concrete CSV table. -/
theorem read_table_dispatch_witness :
    (strStartsWith "file:///tmp/t.csv" "file://" = false →
      read_table exCsvTable = .error (Err.unsupportedOperation "Only local storage is supported."))
    ∧ (strStartsWith "file:///tmp/t.csv" "file://" = true →
        ((exCsvTable.file_type = FileType.DELTA ∨ exCsvTable.file_type = FileType.PARQUET ∨
            exCsvTable.file_type = FileType.CSV ∨ exCsvTable.file_type = FileType.AVRO) →
          ∃ op, read_table exCsvTable = .ok op ∧ readerFor op = exCsvTable.file_type)
        ∧ ((exCsvTable.file_type = FileType.JSON ∨ exCsvTable.file_type = FileType.ORC ∨
            exCsvTable.file_type = FileType.TEXT) →
          read_table exCsvTable = .error Err.notImplemented)) :=
  read_table_dispatch exCsvTable "file:///tmp/t.csv" rfl (by decide)

theorem dictInsert_append {d : List (Prod String PolarsType)} {k : String}
    {v : PolarsType} (h : ∀ kv ∈ d, kv.1 ≠ k) :
    dictInsert d k v = d ++ [(k, v)] := by
  induction d with
  | nil => rfl
  | cons kv rest ih =>
    obtain ⟨k', v'⟩ := kv
    have hk : ¬(k' = k) := h (k', v') (by simp)
    simp [dictInsert, hk, ih fun kv hm => h kv (by simp [hm])]

theorem dict_foldl_append : ∀ (ps acc : List (Prod String PolarsType)),
    ((acc ++ ps).map Prod.fst).Nodup →
    List.foldl (fun d kv => dictInsert d kv.1 kv.2) acc ps = acc ++ ps := by
  intro ps
  induction ps with
  | nil => intro acc _; simp
  | cons kv rest ih =>
    intro acc h
    obtain ⟨k, v⟩ := kv
    have hnotin : ∀ kv' ∈ acc, kv'.1 ≠ k := by
      have hnd := h
      rw [List.map_append, List.nodup_append] at hnd
      obtain ⟨_, _, hdisj⟩ := hnd
      intro kv' hm he
      exact hdisj (List.mem_map_of_mem Prod.fst hm) (by simp [he])
    rw [List.foldl_cons, dictInsert_append hnotin,
      ih (acc ++ [(k, v)]) (by simpa [List.append_assoc] using h)]
    simp

theorem dictOfPairs_eq_self {ps : List (Prod String PolarsType)}
    (h : (ps.map Prod.fst).Nodup) : dictOfPairs ps = ps := by
  simpa using dict_foldl_append ps [] (by simpa using h)

theorem cols_to_pl_pairs_forall₂ {cols : List Column}
    {ps : List (Prod String PolarsType)} (h : cols_to_pl_pairs cols = .ok ps) :
    List.Forall₂ (fun (c : Column) (p : Prod String PolarsType) =>
      p.1 = c.name ∧ uc_type_to_polars_type c.data_type 0 0 = .ok p.2) cols ps := by
  induction cols generalizing ps with
  | nil =>
    simp only [cols_to_pl_pairs] at h
    obtain rfl : ([] : List (Prod String PolarsType)) = ps := Except.ok.inj h
    exact List.Forall₂.nil
  | cons c rest ih =>
    simp only [cols_to_pl_pairs] at h
    rcases ht : uc_type_to_polars_type c.data_type 0 0 with e | t <;> rw [ht] at h
    · simp at h
    · rcases hr : cols_to_pl_pairs rest with e2 | ps2 <;> rw [hr] at h
      · simp at h
      · simp only [Except.ok.injEq] at h
        subst h
        exact List.Forall₂.cons ⟨rfl, ht⟩ (ih hr)

theorem pairs_fst_eq {cols : List Column} {ps : List (Prod String PolarsType)}
    (h : List.Forall₂ (fun (c : Column) (p : Prod String PolarsType) =>
      p.1 = c.name ∧ uc_type_to_polars_type c.data_type 0 0 = .ok p.2) cols ps) :
    ps.map Prod.fst = cols.map Column.name := by
  induction h with
  | nil => rfl
  | cons hcp _ ih => simp [ih, hcp.1]

/-- C6: `get_partition_columns` returns exactly the columns with a
non-`None` partition index, sorted ascending by that index; for a PARQUET
table with at least one partition column (whose types convert and whose
names are distinct), `read_table` and `scan_table` read with hive
partitioning using those columns' names and their UC-to-polars converted
types, and with no partition columns they read the file directly. -/
theorem get_partition_columns_spec :
    (∀ cols : List Column,
      (get_partition_columns cols).Perm (cols.filter fun c => c.partition_index.isSome)
      ∧ List.Pairwise (fun a b : Column =>
          a.partition_index.getD 0 ≤ b.partition_index.getD 0)
          (get_partition_columns cols))
    ∧ (∀ (table : Table) (path : String),
        table.file_type = FileType.PARQUET →
        table.storage_location = some path →
        strStartsWith path "file://" = true →
        colsConvertible (get_partition_columns table.columns) = true →
        ((get_partition_columns table.columns).map Column.name).Nodup →
        (0 < (get_partition_columns table.columns).length →
          ∃ ps, List.Forall₂ (fun (c : Column) (p : Prod String PolarsType) =>
              p.1 = c.name ∧ uc_type_to_polars_type c.data_type 0 0 = .ok p.2)
              (get_partition_columns table.columns) ps
            ∧ read_table table = .ok (ReadOp.parquetHive (strDrop path 7) ps)
            ∧ scan_table table = .ok (ReadOp.parquetHive (strDrop path 7) ps))
        ∧ ((get_partition_columns table.columns).length = 0 →
          read_table table = .ok (ReadOp.parquetPlain (strDrop path 7))
          ∧ scan_table table = .ok (ReadOp.parquetPlain (strDrop path 7)))) := by
  constructor
  · intro cols
    exact ⟨List.perm_insertionSort _ _, List.sorted_insertionSort partIdxLe _⟩
  · intro table path hft hloc hp hconv hnodup
    constructor
    · intro hlen
      obtain ⟨ps, hps⟩ := cols_pairs_ok_of_convertible hconv
      have hf2 := cols_to_pl_pairs_forall₂ hps
      have hdict : dictOfPairs ps = ps :=
        dictOfPairs_eq_self (by rw [pairs_fst_eq hf2]; exact hnodup)
      have hl0 : ¬(get_partition_columns table.columns).length = 0 := by omega
      exact ⟨ps, hf2, by simp [read_table, hloc, hp, hft, hl0, hps, hdict],
        by simp [scan_table, hloc, hp, hft, hl0, hps, hdict]⟩
    · intro hlen
      exact ⟨by simp [read_table, hloc, hp, hft, hlen],
        by simp [scan_table, hloc, hp, hft, hlen]⟩

/-- Witness for C6 at a concrete partitioned PARQUET table. -/
theorem get_partition_columns_spec_witness :
    ∃ ps, List.Forall₂ (fun (c : Column) (p : Prod String PolarsType) =>
        p.1 = c.name ∧ uc_type_to_polars_type c.data_type 0 0 = .ok p.2)
        (get_partition_columns exParquetTable.columns) ps
      ∧ read_table exParquetTable = .ok (ReadOp.parquetHive (strDrop "file:///tmp/p" 7) ps)
      ∧ scan_table exParquetTable = .ok (ReadOp.parquetHive (strDrop "file:///tmp/p" 7) ps) :=
  (get_partition_columns_spec.2 exParquetTable "file:///tmp/p" rfl rfl
    (by decide) (by decide) (by decide)).1 (by decide)

theorem raise_ok_inv {df : DfSchema} {uc : List Column} {u : Unit}
    (h : raise_for_schema_mismatch df uc = .ok u) :
    ∃ s, df_schema_to_uc_schema df [] = .ok s ∧
      check_schema_equality s uc = true := by
  unfold raise_for_schema_mismatch at h
  rcases hc : df_schema_to_uc_schema df [] with e | s <;> rw [hc] at h <;> simp at h
  exact ⟨s, rfl, h⟩

/-- C7: `create_as_table` refuses EXTERNAL tables without a location and
refuses MANAGED tables outright, in both cases before any catalog call;
whenever it proceeds (creates a table or performs any catalog call), the
table type is EXTERNAL and the location is an explicit `file://` path. -/
theorem create_as_table_spec :
    (∀ (df : DfSchema) (catalog schema name : String) (ft : FileType)
      (pcs : Option (List String)),
      create_as_table df catalog schema name ft TableType.EXTERNAL none pcs =
        ([], .error (Err.unsupportedOperation
          "To create an EXTERNAL table, you must specify a location to store it in.")))
    ∧ (∀ (df : DfSchema) (catalog schema name : String) (ft : FileType)
      (loc : Option String) (pcs : Option (List String)),
      create_as_table df catalog schema name ft TableType.MANAGED loc pcs =
        ([], .error (Err.unsupportedOperation "MANAGED tables are not yet supported.")))
    ∧ (∀ (df : DfSchema) (catalog schema name : String) (ft : FileType)
      (tt : TableType) (loc : Option String) (pcs : Option (List String)),
      ((∃ t, (create_as_table df catalog schema name ft tt loc pcs).2 = .ok t)
        ∨ (create_as_table df catalog schema name ft tt loc pcs).1 ≠ []) →
      tt = TableType.EXTERNAL ∧
        ∃ l, loc = some l ∧ strStartsWith l "file://" = true) := by
  refine ⟨fun df catalog schema name ft pcs => by simp [create_as_table],
    fun df catalog schema name ft loc pcs => by simp [create_as_table], ?_⟩
  intro df catalog schema name ft tt loc pcs hyp
  cases tt
  case MANAGED => simp [create_as_table] at hyp
  case EXTERNAL =>
    cases loc with
    | none => simp [create_as_table] at hyp
    | some l =>
      cases hp : strStartsWith l "file://"
      · rw [show create_as_table df catalog schema name ft TableType.EXTERNAL
            (some l) pcs = ([], .error (Err.unsupportedOperation
              "Only local storage is supported.")) from by
            simp [create_as_table, hp]] at hyp
        simp at hyp
      · exact ⟨rfl, l, rfl, hp⟩

/-- Witness for C7: a concrete successful external creation. -/
theorem create_as_table_spec_witness :
    TableType.EXTERNAL = TableType.EXTERNAL ∧
    ∃ l, (some "file:///tmp/new" : Option String) = some l ∧
      strStartsWith l "file://" = true :=
  create_as_table_spec.2.2 exDfInt "cat" "sch" "new" FileType.CSV
    TableType.EXTERNAL (some "file:///tmp/new") none (Or.inl ⟨_, rfl⟩)

theorem strict_write_returns_none_aux (table : Table) (df post_delta : DfSchema)
    (mode : WriteMode) (pf : Option (List (Prod String (Prod String String))))
    (rw : Option String) (v : Option (List Column))
    (h : (write_table table df mode SchemaEvolution.STRICT pf rw post_delta).2 = .ok v) :
    v = none := by
  rcases hloc : table.storage_location with _ | path
  · simp [write_table, hloc] at h
  · cases hp : strStartsWith path "file://"
    · simp [write_table, hloc, hp] at h
    · cases hft : table.file_type <;> cases mode <;>
        simp [write_table, hloc, hp, hft] at h
      case DELTA.APPEND =>
        rcases hr : raise_for_schema_mismatch df table.columns with e | u <;>
          rw [hr] at h <;> simp at h
        exact h.symm
      case DELTA.OVERWRITE =>
        rcases hr : raise_for_schema_mismatch df table.columns with e | u <;>
          rw [hr] at h <;> simp at h
        split at h <;> simp at h
        exact h.symm
      case PARQUET.APPEND =>
        by_cases hl : get_partition_columns table.columns = []
        · simp [hl] at h
        · simp [hl] at h
          rcases hr : raise_for_schema_mismatch df table.columns with e | u <;>
            rw [hr] at h <;> simp at h
          exact h.symm
      case PARQUET.OVERWRITE =>
        rcases hr : raise_for_schema_mismatch df table.columns with e | u <;>
          rw [hr] at h <;> simp at h
        obtain ⟨s, hs, hch⟩ := raise_ok_inv hr
        rw [post_write_none hs hch] at h
        exact (Except.ok.inj h).symm
      case CSV.OVERWRITE =>
        rcases hr : raise_for_schema_mismatch df table.columns with e | u <;>
          rw [hr] at h <;> simp at h
        exact h.symm
      case AVRO.OVERWRITE =>
        rcases hr : raise_for_schema_mismatch df table.columns with e | u <;>
          rw [hr] at h <;> simp at h
        exact h.symm

/-- C9: a `write_table` call under STRICT schema evolution that returns
normally always returns `None`, so `UCClient.write_table` never calls
`overwrite_table` (never updates the recorded catalog columns) under
STRICT. -/
theorem write_table_strict_never_updates :
    (∀ (table : Table) (df post_delta : DfSchema) (mode : WriteMode)
      (pf : Option (List (Prod String (Prod String String)))) (rw : Option String)
      (v : Option (List Column)),
      (write_table table df mode SchemaEvolution.STRICT pf rw post_delta).2 = .ok v →
      v = none)
    ∧ (∀ (table : Table) (df post_delta : DfSchema) (mode : WriteMode)
      (pf : Option (List (Prod String (Prod String String)))) (rw : Option String),
      (client_write_table table df mode SchemaEvolution.STRICT pf rw post_delta).2.1 = []) := by
  refine ⟨strict_write_returns_none_aux, ?_⟩
  intro table df post_delta mode pf rw
  unfold client_write_table
  rcases hw : (write_table table df mode SchemaEvolution.STRICT pf rw post_delta).2
    with e | v
  · simp [hw]
  · rcases v with _ | cols
    · simp [hw]
    · exact absurd (strict_write_returns_none_aux table df post_delta mode pf rw
        (some cols) hw) (by simp)

/-- Witness for C9 at a concrete matching CSV overwrite. -/
theorem write_table_strict_never_updates_witness :
    (write_table exCsvTable exDfInt WriteMode.OVERWRITE SchemaEvolution.STRICT
      none none []).2 = .ok (none : Option (List Column)) ∧
    (none : Option (List Column)) = none ∧
    (client_write_table exCsvTable exDfInt WriteMode.OVERWRITE SchemaEvolution.STRICT
      none none []).2.1 = [] :=
  ⟨rfl, write_table_strict_never_updates.1 exCsvTable exDfInt [] WriteMode.OVERWRITE
      none none none rfl,
    write_table_strict_never_updates.2 exCsvTable exDfInt [] WriteMode.OVERWRITE
      none none⟩

theorem colPairOk_iff {a b : Column} : colPairOk a b = true ↔
    (a.name = b.name ∧ a.data_type = b.data_type ∧
      (a.data_type = DataType.DECIMAL →
        a.type_precision = b.type_precision ∧ a.type_scale = b.type_scale)) := by
  unfold colPairOk
  by_cases h1 : a.name = b.name <;> by_cases h2 : a.data_type = b.data_type <;>
    by_cases h3 : a.data_type = DataType.DECIMAL <;>
      by_cases h4 : a.type_precision = b.type_precision <;>
        by_cases h5 : a.type_scale = b.type_scale <;>
          simp [h1, h2, h3, h4, h5]

theorem bool_eq_of_iff {a b : Bool} (h : a = true ↔ b = true) : a = b := by
  cases a <;> cases b <;> simp_all

theorem colPairOk_symm (a b : Column) : colPairOk a b = colPairOk b a := by
  apply bool_eq_of_iff
  rw [colPairOk_iff, colPairOk_iff]
  constructor
  · rintro ⟨h1, h2, h3⟩
    exact ⟨h1.symm, h2.symm, fun hd =>
      ⟨(h3 (h2.trans hd)).1.symm, (h3 (h2.trans hd)).2.symm⟩⟩
  · rintro ⟨h1, h2, h3⟩
    exact ⟨h1.symm, h2.symm, fun hd =>
      ⟨(h3 (h2.trans hd)).1.symm, (h3 (h2.trans hd)).2.symm⟩⟩

theorem colPairOk_refl (a : Column) : colPairOk a a = true := by
  simp [colPairOk]

theorem mem_zip_self {α : Type} : ∀ {l : List α} {p : α × α},
    p ∈ l.zip l → p.1 = p.2 := by
  intro l
  induction l with
  | nil => intro p h; simp at h
  | cons x xs ih =>
    intro p h
    rw [List.zip_cons_cons] at h
    rcases List.mem_cons.mp h with rfl | h'
    · rfl
    · exact ih h'

theorem all_congr_aux {α : Type} {l : List α} {p q : α → Bool}
    (h : ∀ x ∈ l, p x = q x) : l.all p = l.all q := by
  induction l with
  | nil => rfl
  | cons x xs ih =>
    simp only [List.all_cons, h x (by simp), ih fun y hy => h y (by simp [hy])]

theorem colKey_fields {a b : Column} (h : colKey a = colKey b) :
    a.name = b.name ∧ a.data_type = b.data_type ∧
    a.type_precision = b.type_precision ∧ a.type_scale = b.type_scale ∧
    a.position = b.position := by
  simpa [colKey, Prod.ext_iff] using h

theorem colPairOk_congr {a a' b b' : Column} (ha : colKey a = colKey a')
    (hb : colKey b = colKey b') : colPairOk a b = colPairOk a' b' := by
  obtain ⟨ha1, ha2, ha3, ha4, _⟩ := colKey_fields ha
  obtain ⟨hb1, hb2, hb3, hb4, _⟩ := colKey_fields hb
  simp [colPairOk, ha1, ha2, ha3, ha4, hb1, hb2, hb3, hb4]

theorem map_eq_iff_forall₂ : ∀ {l l' : List Column},
    l.map colKey = l'.map colKey ↔
      List.Forall₂ (fun a b => colKey a = colKey b) l l' := by
  intro l
  induction l with
  | nil =>
    intro l'
    cases l' <;> simp
  | cons x xs ih =>
    intro l'
    cases l' with
    | nil => simp
    | cons y ys => simp [ih]

theorem orderedInsert_congr {a a' : Column} {l l' : List Column}
    (ha : colKey a = colKey a')
    (h : List.Forall₂ (fun x y => colKey x = colKey y) l l') :
    List.Forall₂ (fun x y => colKey x = colKey y)
      (List.orderedInsert posLe a l) (List.orderedInsert posLe a' l') := by
  induction h with
  | nil => exact List.Forall₂.cons ha List.Forall₂.nil
  | cons hxy htail ih =>
    rename_i x y xs ys
    have hpos : a.position = a'.position := (colKey_fields ha).2.2.2.2
    have hxpos : x.position = y.position := (colKey_fields hxy).2.2.2.2
    simp only [List.orderedInsert]
    by_cases hle : posLe a x
    · rw [if_pos hle, if_pos (show posLe a' y by
        unfold posLe at hle ⊢; rw [← hpos, ← hxpos]; exact hle)]
      exact List.Forall₂.cons ha (List.Forall₂.cons hxy htail)
    · rw [if_neg hle, if_neg (show ¬posLe a' y by
        unfold posLe at hle ⊢; rw [← hpos, ← hxpos]; exact hle)]
      exact List.Forall₂.cons hxy ih

theorem insertionSort_congr {l l' : List Column}
    (h : List.Forall₂ (fun x y => colKey x = colKey y) l l') :
    List.Forall₂ (fun x y => colKey x = colKey y)
      (sortByPosition l) (sortByPosition l') := by
  induction h with
  | nil => exact List.Forall₂.nil
  | cons hxy htail ih => exact orderedInsert_congr hxy ih

theorem zip_all_congr : ∀ {l l' r r' : List Column},
    List.Forall₂ (fun x y => colKey x = colKey y) l l' →
    List.Forall₂ (fun x y => colKey x = colKey y) r r' →
    ((l.zip r).all fun p => colPairOk p.1 p.2) =
      ((l'.zip r').all fun p => colPairOk p.1 p.2) := by
  intro l l' r r' hl
  induction hl generalizing r r' with
  | nil => intro _; rfl
  | cons hxy htail ih =>
    intro hr
    cases hr with
    | nil => rfl
    | cons hab htail2 =>
      simp only [List.zip_cons_cons, List.all_cons]
      rw [colPairOk_congr hxy hab, ih htail2]

/-- C8: `check_schema_equality` returns true exactly when the lists have
equal length and, after the stable sort by position, corresponding columns
agree on name and data type, and on precision and scale when the type is
DECIMAL; nullability, comments and partition indices never affect the
result, and the relation is symmetric and reflexive. -/
theorem check_schema_equality_spec :
    (∀ l r : List Column, check_schema_equality l r = true ↔
      (l.length = r.length ∧ ∀ p ∈ (sortByPosition l).zip (sortByPosition r),
        p.1.name = p.2.name ∧ p.1.data_type = p.2.data_type ∧
        (p.1.data_type = DataType.DECIMAL →
          p.1.type_precision = p.2.type_precision ∧
          p.1.type_scale = p.2.type_scale)))
    ∧ (∀ l l' r r' : List Column, l.map colKey = l'.map colKey →
        r.map colKey = r'.map colKey →
        check_schema_equality l r = check_schema_equality l' r')
    ∧ (∀ l r : List Column, check_schema_equality l r = check_schema_equality r l)
    ∧ (∀ l : List Column, check_schema_equality l l = true) := by
  refine ⟨?_, ?_, ?_, ?_⟩
  · intro l r
    unfold check_schema_equality
    by_cases hlen : l.length = r.length
    · simp [hlen, List.all_eq_true, colPairOk_iff]
    · simp [hlen]
  · intro l l' r r' hl hr
    have hl2 := map_eq_iff_forall₂.mp hl
    have hr2 := map_eq_iff_forall₂.mp hr
    have hllen := hl2.length_eq
    have hrlen := hr2.length_eq
    unfold check_schema_equality
    by_cases h : l.length = r.length
    · rw [if_neg (by omega), if_neg (by omega)]
      exact zip_all_congr (insertionSort_congr hl2) (insertionSort_congr hr2)
    · rw [if_pos (by omega), if_pos (by omega)]
  · intro l r
    unfold check_schema_equality
    by_cases h : l.length = r.length
    · rw [if_neg (by omega), if_neg (by omega), ← List.zip_swap, List.all_map]
      exact all_congr_aux fun x _ => colPairOk_symm x.2 x.1
    · rw [if_pos (by omega), if_pos (by omega)]
  · intro l
    unfold check_schema_equality
    rw [if_neg (by omega), List.all_eq_true]
    intro p hp
    rw [mem_zip_self hp]
    exact colPairOk_refl p.2

/-- Witness for C8: altering nullability, comment and partition index of a
column does not change `check_schema_equality`. -/
theorem check_schema_equality_spec_witness :
    check_schema_equality [⟨"a", DataType.INT, 0, 0, none, 0, some "c", false, some 3⟩]
        [colInt "a" 0] =
      check_schema_equality [colInt "a" 0] [colInt "a" 0] :=
  check_schema_equality_spec.2.1 _ _ _ _ (by decide) (by decide)

theorem post_write_spec {post : DfSchema} {uc : List Column} {pn : List String}
    {v : Option (List Column)} (h : post_write_columns post uc pn = .ok v) :
    ((∃ cols, v = some cols) ↔ ∃ s, df_schema_to_uc_schema post [] = .ok s ∧
        check_schema_equality s uc = false)
    ∧ (∀ cols, v = some cols → df_schema_to_uc_schema post pn = .ok cols)
    ∧ (v = none ↔ ∃ s, df_schema_to_uc_schema post [] = .ok s ∧
        check_schema_equality s uc = true) := by
  obtain ⟨hnone, hsome⟩ := post_write_characterize h
  refine ⟨⟨?_, ?_⟩, fun cols hc => (hsome cols hc).1, hnone⟩
  · rintro ⟨cols, rfl⟩
    exact (hsome cols rfl).2
  · rintro ⟨s, hs, hf⟩
    rcases v with _ | cols
    · obtain ⟨s', hs', ht⟩ := hnone.mp rfl
      rw [hs] at hs'
      obtain rfl := Except.ok.inj hs'
      rw [hf] at ht
      cases ht
    · exact ⟨cols, rfl⟩

theorem strict_none_spec {post : DfSchema} {uc s : List Column}
    (hs : df_schema_to_uc_schema post [] = .ok s)
    (hch : check_schema_equality s uc = true) (pn : List String) :
    ((∃ cols, (none : Option (List Column)) = some cols) ↔
      ∃ s', df_schema_to_uc_schema post [] = .ok s' ∧
        check_schema_equality s' uc = false)
    ∧ (∀ cols, (none : Option (List Column)) = some cols →
        df_schema_to_uc_schema post pn = .ok cols)
    ∧ ((none : Option (List Column)) = none ↔
      ∃ s', df_schema_to_uc_schema post [] = .ok s' ∧
        check_schema_equality s' uc = true) := by
  refine ⟨⟨?_, ?_⟩, ?_, ⟨fun _ => ⟨s, hs, hch⟩, fun _ => rfl⟩⟩
  · rintro ⟨cols, hc⟩
    cases hc
  · rintro ⟨s', hs', hf⟩
    rw [hs] at hs'
    obtain rfl := Except.ok.inj hs'
    rw [hch] at hf
    cases hf
  · intro cols hc
    cases hc

/-- C2: whenever `write_table` returns normally, it returns a list of
columns iff the schema of the dataset after the physical write (the schema
read back by `pl.scan_delta` for DELTA, the written dataframe's schema
otherwise) differs per `check_schema_equality` from the recorded columns,
and the returned list is that post-write schema converted by
`df_schema_to_uc_schema`; it returns `None` iff the recorded catalog schema
needs no update.  The hypothesis `hsd` is the deltalake library guarantee
that a STRICT delta write leaves the stored schema equal to the written
dataframe's schema. -/
theorem write_table_schema_update (table : Table) (df post_delta : DfSchema)
    (mode : WriteMode) (se : SchemaEvolution)
    (pf : Option (List (Prod String (Prod String String)))) (rw : Option String)
    (v : Option (List Column))
    (hsd : table.file_type = FileType.DELTA → se = SchemaEvolution.STRICT →
      post_delta = df)
    (hok : (write_table table df mode se pf rw post_delta).2 = .ok v) :
    ((∃ cols, v = some cols) ↔
      ∃ s, df_schema_to_uc_schema
          (if table.file_type = FileType.DELTA then post_delta else df) [] = .ok s ∧
        check_schema_equality s table.columns = false)
    ∧ (∀ cols, v = some cols →
        df_schema_to_uc_schema
          (if table.file_type = FileType.DELTA then post_delta else df)
          (if table.file_type = FileType.DELTA ∨ table.file_type = FileType.PARQUET
            then (get_partition_columns table.columns).map Column.name else []) =
          .ok cols)
    ∧ (v = none ↔
      ∃ s, df_schema_to_uc_schema
          (if table.file_type = FileType.DELTA then post_delta else df) [] = .ok s ∧
        check_schema_equality s table.columns = true) := by
  rcases hloc : table.storage_location with _ | path
  · simp [write_table, hloc] at hok
  · cases hp : strStartsWith path "file://"
    · simp [write_table, hloc, hp] at hok
    · cases hft : table.file_type <;> cases mode <;> cases se <;>
        simp [write_table, hloc, hp, hft] at hok
      case DELTA.APPEND.STRICT =>
        rcases hr : raise_for_schema_mismatch df table.columns with e | u <;>
          rw [hr] at hok <;> simp at hok
        obtain rfl := hsd hft rfl
        obtain ⟨s, hs, hch⟩ := raise_ok_inv hr
        subst hok
        simpa [hft] using strict_none_spec hs hch
          ((get_partition_columns table.columns).map Column.name)
      case DELTA.OVERWRITE.STRICT =>
        rcases hr : raise_for_schema_mismatch df table.columns with e | u <;>
          rw [hr] at hok <;> simp at hok
        split at hok
        · simp at hok
        · simp at hok
          obtain rfl := hsd hft rfl
          obtain ⟨s, hs, hch⟩ := raise_ok_inv hr
          subst hok
          simpa [hft] using strict_none_spec hs hch
            ((get_partition_columns table.columns).map Column.name)
      case DELTA.APPEND.MERGE =>
        simpa [hft] using post_write_spec hok
      case DELTA.OVERWRITE.MERGE =>
        split at hok
        · simp at hok
        · simpa [hft] using post_write_spec hok
      case DELTA.OVERWRITE.OVERWRITE =>
        split at hok
        · simp at hok
        · simpa [hft] using post_write_spec hok
      case PARQUET.APPEND.STRICT =>
        by_cases hl : get_partition_columns table.columns = []
        · simp [hl] at hok
        · simp [hl] at hok
          rcases hr : raise_for_schema_mismatch df table.columns with e | u <;>
            rw [hr] at hok <;> simp at hok
          obtain ⟨s, hs, hch⟩ := raise_ok_inv hr
          subst hok
          simpa [hft] using strict_none_spec hs hch
            ((get_partition_columns table.columns).map Column.name)
      case PARQUET.OVERWRITE.STRICT =>
        rcases hr : raise_for_schema_mismatch df table.columns with e | u <;>
          rw [hr] at hok <;> simp at hok
        simpa [hft] using post_write_spec hok
      case PARQUET.OVERWRITE.MERGE =>
        simpa [hft] using post_write_spec hok
      case PARQUET.OVERWRITE.OVERWRITE =>
        simpa [hft] using post_write_spec hok
      case CSV.OVERWRITE.STRICT =>
        rcases hr : raise_for_schema_mismatch df table.columns with e | u <;>
          rw [hr] at hok <;> simp at hok
        obtain ⟨s, hs, hch⟩ := raise_ok_inv hr
        subst hok
        simpa [hft] using strict_none_spec hs hch []
      case CSV.OVERWRITE.OVERWRITE =>
        simpa [hft] using post_write_spec hok
      case AVRO.OVERWRITE.STRICT =>
        rcases hr : raise_for_schema_mismatch df table.columns with e | u <;>
          rw [hr] at hok <;> simp at hok
        obtain ⟨s, hs, hch⟩ := raise_ok_inv hr
        subst hok
        simpa [hft] using strict_none_spec hs hch []
      case AVRO.OVERWRITE.OVERWRITE =>
        simpa [hft] using post_write_spec hok

/-- Witness for C2 at a concrete CSV overwrite whose schema changes. -/
theorem write_table_schema_update_witness :
    ((∃ cols, (some [⟨"a", DataType.LONG, 0, 0, none, 0, none, true, none⟩] :
        Option (List Column)) = some cols) ↔
      ∃ s, df_schema_to_uc_schema
          (if exCsvTable.file_type = FileType.DELTA then [] else exDfLong) [] = .ok s ∧
        check_schema_equality s exCsvTable.columns = false)
    ∧ (∀ cols, (some [⟨"a", DataType.LONG, 0, 0, none, 0, none, true, none⟩] :
        Option (List Column)) = some cols →
        df_schema_to_uc_schema
          (if exCsvTable.file_type = FileType.DELTA then [] else exDfLong)
          (if exCsvTable.file_type = FileType.DELTA ∨
              exCsvTable.file_type = FileType.PARQUET
            then (get_partition_columns exCsvTable.columns).map Column.name else []) =
          .ok cols)
    ∧ ((some [⟨"a", DataType.LONG, 0, 0, none, 0, none, true, none⟩] :
        Option (List Column)) = none ↔
      ∃ s, df_schema_to_uc_schema
          (if exCsvTable.file_type = FileType.DELTA then [] else exDfLong) [] = .ok s ∧
        check_schema_equality s exCsvTable.columns = true) :=
  write_table_schema_update exCsvTable exDfLong [] WriteMode.OVERWRITE
    SchemaEvolution.OVERWRITE none none
    (some [⟨"a", DataType.LONG, 0, 0, none, 0, none, true, none⟩])
    (fun h => absurd h (by decide)) rfl

/-- C3: under STRICT schema evolution, on every supported (file type, mode)
combination, `write_table` raises `SchemaMismatchError` iff the incoming
dataframe's schema is not `check_schema_equality`-equal to the table's
recorded columns, and on that error no physical write has been performed. -/
theorem write_table_strict_mismatch (table : Table) (df post_delta : DfSchema)
    (mode : WriteMode) (pf : Option (List (Prod String (Prod String String))))
    (rw : Option String) (path : String) (dfCols : List Column)
    (hloc : table.storage_location = some path)
    (hp : strStartsWith path "file://" = true)
    (hdf : df_schema_to_uc_schema df [] = .ok dfCols)
    (hsup : strictSupported table.file_type mode
      (decide (0 < (get_partition_columns table.columns).length)) = true) :
    ((∃ m, (write_table table df mode SchemaEvolution.STRICT pf rw post_delta).2 =
        .error (Err.schemaMismatch m)) ↔
      check_schema_equality dfCols table.columns = false)
    ∧ (check_schema_equality dfCols table.columns = false →
        (write_table table df mode SchemaEvolution.STRICT pf rw post_delta).1 = []) := by
  cases hft : table.file_type <;> cases mode <;> simp [strictSupported, hft] at hsup
  case DELTA.APPEND =>
    by_cases hch : check_schema_equality dfCols table.columns = true
    · refine ⟨⟨?_, ?_⟩, ?_⟩
      · rintro ⟨m, hm⟩
        simp [write_table, hloc, hp, hft, raise_ok hdf hch] at hm
      · intro hfalse
        rw [hch] at hfalse
        simp at hfalse
      · intro hfalse
        rw [hch] at hfalse
        simp at hfalse
    · have hch' : check_schema_equality dfCols table.columns = false := by
        simpa using hch
      have hrm := raise_mismatch hdf hch'
      exact ⟨⟨fun _ => hch', fun _ =>
          ⟨"Schema evolution is set to strict but schemas do not match",
            by simp [write_table, hloc, hp, hft, hrm]⟩⟩,
        fun _ => by simp [write_table, hloc, hp, hft, hrm]⟩
  case DELTA.OVERWRITE =>
    by_cases hch : check_schema_equality dfCols table.columns = true
    · refine ⟨⟨?_, ?_⟩, ?_⟩
      · rintro ⟨m, hm⟩
        simp [write_table, hloc, hp, hft, raise_ok hdf hch] at hm
        split at hm <;> simp at hm
      · intro hfalse
        rw [hch] at hfalse
        simp at hfalse
      · intro hfalse
        rw [hch] at hfalse
        simp at hfalse
    · have hch' : check_schema_equality dfCols table.columns = false := by
        simpa using hch
      have hrm := raise_mismatch hdf hch'
      exact ⟨⟨fun _ => hch', fun _ =>
          ⟨"Schema evolution is set to strict but schemas do not match",
            by simp [write_table, hloc, hp, hft, hrm]⟩⟩,
        fun _ => by simp [write_table, hloc, hp, hft, hrm]⟩
  case PARQUET.APPEND =>
    have hne : get_partition_columns table.columns ≠ [] := by
      intro he
      rw [he] at hsup
      simp at hsup
    by_cases hch : check_schema_equality dfCols table.columns = true
    · refine ⟨⟨?_, ?_⟩, ?_⟩
      · rintro ⟨m, hm⟩
        simp [write_table, hloc, hp, hft, hne, raise_ok hdf hch] at hm
      · intro hfalse
        rw [hch] at hfalse
        simp at hfalse
      · intro hfalse
        rw [hch] at hfalse
        simp at hfalse
    · have hch' : check_schema_equality dfCols table.columns = false := by
        simpa using hch
      have hrm := raise_mismatch hdf hch'
      exact ⟨⟨fun _ => hch', fun _ =>
          ⟨"Schema evolution is set to strict but schemas do not match",
            by simp [write_table, hloc, hp, hft, hne, hrm]⟩⟩,
        fun _ => by simp [write_table, hloc, hp, hft, hne, hrm]⟩
  case PARQUET.OVERWRITE =>
    by_cases hch : check_schema_equality dfCols table.columns = true
    · refine ⟨⟨?_, ?_⟩, ?_⟩
      · rintro ⟨m, hm⟩
        simp [write_table, hloc, hp, hft, raise_ok hdf hch] at hm
        rw [post_write_none hdf hch] at hm
        simp at hm
      · intro hfalse
        rw [hch] at hfalse
        simp at hfalse
      · intro hfalse
        rw [hch] at hfalse
        simp at hfalse
    · have hch' : check_schema_equality dfCols table.columns = false := by
        simpa using hch
      have hrm := raise_mismatch hdf hch'
      exact ⟨⟨fun _ => hch', fun _ =>
          ⟨"Schema evolution is set to strict but schemas do not match",
            by simp [write_table, hloc, hp, hft, hrm]⟩⟩,
        fun _ => by simp [write_table, hloc, hp, hft, hrm]⟩
  case CSV.OVERWRITE =>
    by_cases hch : check_schema_equality dfCols table.columns = true
    · refine ⟨⟨?_, ?_⟩, ?_⟩
      · rintro ⟨m, hm⟩
        simp [write_table, hloc, hp, hft, raise_ok hdf hch] at hm
      · intro hfalse
        rw [hch] at hfalse
        simp at hfalse
      · intro hfalse
        rw [hch] at hfalse
        simp at hfalse
    · have hch' : check_schema_equality dfCols table.columns = false := by
        simpa using hch
      have hrm := raise_mismatch hdf hch'
      exact ⟨⟨fun _ => hch', fun _ =>
          ⟨"Schema evolution is set to strict but schemas do not match",
            by simp [write_table, hloc, hp, hft, hrm]⟩⟩,
        fun _ => by simp [write_table, hloc, hp, hft, hrm]⟩
  case AVRO.OVERWRITE =>
    by_cases hch : check_schema_equality dfCols table.columns = true
    · refine ⟨⟨?_, ?_⟩, ?_⟩
      · rintro ⟨m, hm⟩
        simp [write_table, hloc, hp, hft, raise_ok hdf hch] at hm
      · intro hfalse
        rw [hch] at hfalse
        simp at hfalse
      · intro hfalse
        rw [hch] at hfalse
        simp at hfalse
    · have hch' : check_schema_equality dfCols table.columns = false := by
        simpa using hch
      have hrm := raise_mismatch hdf hch'
      exact ⟨⟨fun _ => hch', fun _ =>
          ⟨"Schema evolution is set to strict but schemas do not match",
            by simp [write_table, hloc, hp, hft, hrm]⟩⟩,
        fun _ => by simp [write_table, hloc, hp, hft, hrm]⟩

/-- Witness for C3 at a concrete mismatching CSV overwrite. -/
theorem write_table_strict_mismatch_witness :
    ((∃ m, (write_table exCsvTable exDfLong WriteMode.OVERWRITE
        SchemaEvolution.STRICT none none []).2 = .error (Err.schemaMismatch m)) ↔
      check_schema_equality [⟨"a", DataType.LONG, 0, 0, none, 0, none, true, none⟩]
        exCsvTable.columns = false)
    ∧ (check_schema_equality [⟨"a", DataType.LONG, 0, 0, none, 0, none, true, none⟩]
        exCsvTable.columns = false →
      (write_table exCsvTable exDfLong WriteMode.OVERWRITE SchemaEvolution.STRICT
        none none []).1 = []) :=
  write_table_strict_mismatch exCsvTable exDfLong [] WriteMode.OVERWRITE none none
    "file:///tmp/t.csv" [⟨"a", DataType.LONG, 0, 0, none, 0, none, true, none⟩]
    rfl (by decide) rfl (by decide)

/-- C1: with a local storage location, a dataframe whose schema matches the
recorded columns, and a convertible post-write delta schema, `write_table`
realises a total decision table over (file type, mode, schema evolution):
it performs a physical write and returns normally exactly on the
combinations listed by `claimedWriteTable`, and on every other combination
it raises `UnsupportedOperationError` without writing. -/
theorem write_table_decision_table (table : Table) (df post_delta : DfSchema)
    (mode : WriteMode) (se : SchemaEvolution) (path : String)
    (dfCols : List Column)
    (hloc : table.storage_location = some path)
    (hp : strStartsWith path "file://" = true)
    (hdf : df_schema_to_uc_schema df [] = .ok dfCols)
    (hmatch : check_schema_equality dfCols table.columns = true)
    (hpost : convertible post_delta = true) :
    ((write_table table df mode se none none post_delta).1 ≠ [] ↔
      claimedWriteTable table.file_type mode se
        (decide (0 < (get_partition_columns table.columns).length)) = true)
    ∧ ((write_table table df mode se none none post_delta).1 ≠ [] →
        ∃ v, (write_table table df mode se none none post_delta).2 = .ok v)
    ∧ ((write_table table df mode se none none post_delta).1 = [] →
        ∃ msg, (write_table table df mode se none none post_delta).2 =
          .error (Err.unsupportedOperation msg)) := by
  have hr : raise_for_schema_mismatch df table.columns = .ok () := raise_ok hdf hmatch
  obtain ⟨w1, hpw1⟩ := post_write_ok_exists hpost table.columns
    ((get_partition_columns table.columns).map Column.name)
  have hpwdf : ∀ pn, post_write_columns df table.columns pn = .ok none :=
    fun _ => post_write_none hdf hmatch
  cases hft : table.file_type <;> cases mode <;> cases se <;>
    simp [write_table, hloc, hp, hft, claimedWriteTable, hr, hpw1, hpwdf]
  case PARQUET.APPEND.STRICT =>
    by_cases hl : get_partition_columns table.columns = []
    · simp [write_table, hloc, hp, hft, claimedWriteTable, hl]
    · simp [write_table, hloc, hp, hft, claimedWriteTable, hl, hr,
        List.length_pos]

/-- Witness for C1 at a concrete matching CSV overwrite. -/
theorem write_table_decision_table_witness :
    ((write_table exCsvTable exDfInt WriteMode.OVERWRITE SchemaEvolution.STRICT
        none none []).1 ≠ [] ↔
      claimedWriteTable exCsvTable.file_type WriteMode.OVERWRITE
        SchemaEvolution.STRICT
        (decide (0 < (get_partition_columns exCsvTable.columns).length)) = true)
    ∧ ((write_table exCsvTable exDfInt WriteMode.OVERWRITE SchemaEvolution.STRICT
        none none []).1 ≠ [] →
        ∃ v, (write_table exCsvTable exDfInt WriteMode.OVERWRITE
          SchemaEvolution.STRICT none none []).2 = .ok v)
    ∧ ((write_table exCsvTable exDfInt WriteMode.OVERWRITE SchemaEvolution.STRICT
        none none []).1 = [] →
        ∃ msg, (write_table exCsvTable exDfInt WriteMode.OVERWRITE
          SchemaEvolution.STRICT none none []).2 =
          .error (Err.unsupportedOperation msg)) :=
  write_table_decision_table exCsvTable exDfInt [] WriteMode.OVERWRITE
    SchemaEvolution.STRICT "file:///tmp/t.csv" [colInt "a" 0] rfl (by decide)
    rfl (by decide) (by decide)

end LocalLakehouse
